import Mathlib

/-!
Shallow embedding of the multi-provider CDN health/metrics aggregator
(`backend/services/cdn_manager.py`) and proofs about its behaviour.

Python dictionaries are modelled as association lists in insertion order,
`datetime` values as integer seconds, and float metric fields as rationals.
Each definition mirrors one Python function of `CDNIntegrationService`.
-/

namespace CDN

/-- Supported CDN providers (the `CDNProvider` enum). -/
inductive CDNProvider where
  | cloudflare
  | aws_cloudfront
  | azure_cdn
  | google_cdn
  | fastly
  | keycdn
deriving DecidableEq, Repr

/-- String value of each enum member. -/
def CDNProvider.value : CDNProvider → String
  | .cloudflare => "cloudflare"
  | .aws_cloudfront => "aws_cloudfront"
  | .azure_cdn => "azure_cdn"
  | .google_cdn => "google_cdn"
  | .fastly => "fastly"
  | .keycdn => "keycdn"

/-- All enum members, in declaration order. -/
def CDNProvider.all : List CDNProvider :=
  [.cloudflare, .aws_cloudfront, .azure_cdn, .google_cdn, .fastly, .keycdn]

/-- Enum construction `CDNProvider(name)`: the member whose value is `name`,
or `none` where Python raises `ValueError`. -/
def CDNProvider.ofString (name : String) : Option CDNProvider :=
  CDNProvider.all.find? fun p => p.value == name

/-- The `CDNConfig` dataclass. -/
structure CDNConfig where
  provider : CDNProvider
  api_key : String
  api_secret : Option String := none
  zone_id : Option String := none
  distribution_id : Option String := none
  endpoint_url : Option String := none
  regions : List String
  enabled : Bool := true
deriving DecidableEq, Repr

/-- The `CDNMetrics` dataclass (float fields as rationals, timestamps as
integer seconds). -/
structure CDNMetrics where
  provider : String
  timestamp : Int
  requests_per_second : Rat
  bytes_transferred : Int
  cache_hit_ratio : Rat
  response_time_ms : Rat
  error_rate : Rat
  bandwidth_mbps : Rat
  edge_locations_active : Int
  cost_per_gb : Rat
deriving DecidableEq, Repr

/-- The `CDNHealthCheck` dataclass. -/
structure CDNHealthCheck where
  provider : String
  endpoint : String
  status_code : Nat
  response_time_ms : Rat
  is_healthy : Bool
  error_message : Option String := none
deriving DecidableEq, Repr

/-- Lookup in a Python-dict-as-association-list (first binding wins; a dict
never holds a key twice). -/
def alookup (k : String) : List (String × α) → Option α
  | [] => none
  | e :: rest => if e.1 = k then some e.2 else alookup k rest

/-- Assignment `d[k] = v` on a Python dict: overwrite in place when the key
exists, append at the end when it does not. -/
def setAssoc (k : String) (v : α) : List (String × α) → List (String × α)
  | [] => [(k, v)]
  | e :: rest => if e.1 = k then (k, v) :: rest else e :: setAssoc k v rest

/-- Raw provider configuration dict, `config.get` fields optional. -/
structure RawCDNConfig where
  api_key : Option String := none
  api_secret : Option String := none
  zone_id : Option String := none
  distribution_id : Option String := none
  endpoint_url : Option String := none
  regions : Option (List String) := none
  enabled : Option Bool := none
deriving DecidableEq, Repr

/-- One loop iteration of `_parse_configurations`: `CDNProvider(provider_name)`
succeeding yields the built `CDNConfig` (with the `.get` defaults); an unknown
name raises `ValueError`, which is caught and only logged. -/
def parseProviderEntry (name : String) (c : RawCDNConfig) :
    Option (CDNProvider × CDNConfig) :=
  (CDNProvider.ofString name).map fun provider =>
    (provider,
      { provider := provider
        api_key := c.api_key.getD ""
        api_secret := c.api_secret
        zone_id := c.zone_id
        distribution_id := c.distribution_id
        endpoint_url := c.endpoint_url
        regions := c.regions.getD ["global"]
        enabled := c.enabled.getD true })

/-- `_parse_configurations`: every entry of `cdn_providers` is tried; entries
with an unknown provider name are skipped (warning logged), the rest populate
`cdn_configs`. -/
def parse_configurations (cfg : List (String × RawCDNConfig)) :
    List (CDNProvider × CDNConfig) :=
  cfg.filterMap fun nc => parseProviderEntry nc.1 nc.2

/-- Retention window of `_store_metrics`: `timedelta(hours=24)` in seconds. -/
def RETENTION : Int := 24 * 3600

/-- `_store_metrics`: ensure the provider key exists, append the sample, then
keep only samples with `timestamp > cutoff` where `cutoff = now - 24h`. -/
def store_metrics (now : Int) (hist : List (String × List CDNMetrics))
    (m : CDNMetrics) : List (String × List CDNMetrics) :=
  let old := (alookup m.provider hist).getD []
  setAssoc m.provider
    ((old ++ [m]).filter fun s => decide (now - RETENTION < s.timestamp)) hist

/-- Outcome of the HTTP probe inside `_health_check_endpoint`: an HTTP
response with its status code, or a raised exception with its `str(e)`. -/
inductive ProbeOutcome where
  | response (status : Nat)
  | failure (msg : String)
deriving DecidableEq, Repr

/-- Protocol prefixing at the top of `_health_check_endpoint`. -/
def normalizeEndpoint (endpoint : String) : String :=
  if endpoint.startsWith "http://" || endpoint.startsWith "https://" then endpoint
  else "https://" ++ endpoint

/-- `_health_check_endpoint`: a response yields `is_healthy = (200 <= status <
400)` with no error message; an exception is caught and yields `status_code =
0`, `is_healthy = False` and `error_message = str(e)` (the function itself
never raises). `elapsed_ms` stands for the measured wall-clock delta. -/
def health_check_endpoint (provider endpoint : String) (elapsed_ms : Rat)
    (outcome : ProbeOutcome) : CDNHealthCheck :=
  match outcome with
  | .response status =>
      { provider := provider
        endpoint := normalizeEndpoint endpoint
        status_code := status
        response_time_ms := elapsed_ms
        is_healthy := decide (200 ≤ status ∧ status < 400)
        error_message := none }
  | .failure msg =>
      { provider := provider
        endpoint := normalizeEndpoint endpoint
        status_code := 0
        response_time_ms := 0
        is_healthy := false
        error_message := some msg }

/-- Failure window of `_check_failover_conditions`: `timedelta(minutes=5)`. -/
def FAILOVER_WINDOW : Int := 300

/-- `_check_failover_conditions`: scan `health_status` in insertion order; the
first provider that is unhealthy, has a nonempty metrics history, and has at
least 3 samples newer than 5 minutes with `error_rate > 5.0` is returned. -/
def check_failover_conditions (now : Int)
    (hist : List (String × List CDNMetrics)) :
    List (String × Bool) → Option String
  | [] => none
  | e :: rest =>
    if e.2 then check_failover_conditions now hist rest
    else
      let recent_metrics := (alookup e.1 hist).getD []
      let recent_failures := recent_metrics.filter fun m =>
        decide (now - FAILOVER_WINDOW < m.timestamp) && decide ((5 : Rat) < m.error_rate)
      if recent_metrics.isEmpty then check_failover_conditions now hist rest
      else if 3 ≤ recent_failures.length then some e.1
      else check_failover_conditions now hist rest

/-- Backup selection of `_trigger_failover`: the first entry of
`health_status` (insertion order) other than the failed provider that is
currently healthy; `none` when no healthy backup exists (the function logs
and returns, it never raises). -/
def trigger_failover (health : List (String × Bool))
    (failed_provider : String) : Option String :=
  ((health.filter fun pb => pb.1 != failed_provider && pb.2).head?).map Prod.fst

/-- In-memory state the failover monitor reads. -/
structure ServiceState where
  health_status : List (String × Bool)
  metrics_history : List (String × List CDNMetrics)
deriving DecidableEq, Repr

/-- One iteration of `_automated_failover_monitor`: check the conditions and,
when a provider qualifies, run `_trigger_failover`. The Python body mutates no
service state, so the state component of the result is the input state; the
second component records the invoked action `(failed, backup)`. -/
def failover_tick (now : Int) (s : ServiceState) :
    ServiceState × Option (String × Option String) :=
  match check_failover_conditions now s.metrics_history s.health_status with
  | none => (s, none)
  | some failed => (s, some (failed, trigger_failover s.health_status failed))

/-- Samples of one provider newer than `now - window`
(the `recent_metrics` filters of the analysis methods). -/
def recentWindow (now window : Int) (l : List CDNMetrics) : List CDNMetrics :=
  l.filter fun m => decide (now - window < m.timestamp)

/-- Python `sum(...) / len(...)` over a metric field. -/
def ratAvg (f : CDNMetrics → Rat) (l : List CDNMetrics) : Rat :=
  (l.map f).sum / (l.length : Rat)

/-- Composite score of `_analyze_best_performer` over the in-window samples:
`avg_latency + (100 - avg_cache_hit) * 2 + avg_error_rate * 10`. -/
def compositeScore (recent : List CDNMetrics) : Rat :=
  ratAvg CDNMetrics.response_time_ms recent
    + (100 - ratAvg CDNMetrics.cache_hit_ratio recent) * 2
    + ratAvg CDNMetrics.error_rate recent * 10

/-- The `provider_scores` dict built by `_analyze_best_performer`: providers
in metrics-store insertion order, skipping those with an empty history or no
sample within the last hour. -/
def provider_scores (now : Int) :
    List (String × List CDNMetrics) → List (String × Rat)
  | [] => []
  | e :: rest =>
    if e.2.isEmpty then provider_scores now rest
    else
      let recent := recentWindow now 3600 e.2
      if recent.isEmpty then provider_scores now rest
      else (e.1, compositeScore recent) :: provider_scores now rest

/-- Python `min(items, key=score)`: fold keeping the earlier element on ties. -/
def minFirst (x : String × Rat) (xs : List (String × Rat)) : String × Rat :=
  xs.foldl (fun best y => if y.2 < best.2 then y else best) x

/-- `_analyze_best_performer`: the provider of minimal composite score (first
such in insertion order), or `None` when no provider has recent data. -/
def analyze_best_performer (now : Int)
    (hist : List (String × List CDNMetrics)) : Option String :=
  match provider_scores now hist with
  | [] => none
  | x :: xs => some (minFirst x xs).1

/-- The per-provider record built by `_analyze_cost_efficiency`. -/
structure CostSummary where
  total_gb_24h : Rat
  cost_per_gb : Rat
  estimated_daily_cost : Rat
deriving DecidableEq, Repr

/-- `_analyze_cost_efficiency`: for every provider with a sample newer than
24 hours, report total GB (`sum(bytes) / 1024^3`), average cost per GB, and
their product, over exactly the in-window samples. Pure read-side function. -/
def analyze_cost_efficiency (now : Int) :
    List (String × List CDNMetrics) → List (String × CostSummary)
  | [] => []
  | e :: rest =>
    if e.2.isEmpty then analyze_cost_efficiency now rest
    else
      let recent := recentWindow now 86400 e.2
      if recent.isEmpty then analyze_cost_efficiency now rest
      else
        let total_bytes : Int := (recent.map CDNMetrics.bytes_transferred).sum
        let avg_cost : Rat := (recent.map CDNMetrics.cost_per_gb).sum / (recent.length : Rat)
        (e.1,
          { total_gb_24h := (total_bytes : Rat) / 2 ^ 30
            cost_per_gb := avg_cost
            estimated_daily_cost := (total_bytes : Rat) / 2 ^ 30 * avg_cost })
          :: analyze_cost_efficiency now rest

/-- One entry of the dict returned by `get_provider_status` (per-branch keys
as optional fields; `status` holds the no-metrics indicator). -/
structure ProviderStatusEntry where
  enabled : Bool
  healthy : Bool
  last_check : Option Int
  response_time_ms : Option Rat
  cache_hit_ratio : Option Rat
  error_rate : Option Rat
  bandwidth_mbps : Option Rat
  status : Option String
deriving DecidableEq, Repr

/-- Loop body of `get_provider_status` for one configured provider: with
stored samples, report the latest sample and the health flag (default
`False`); with none, report `healthy = False`, `last_check = None` and the
explicit "No metrics available" indicator. -/
def provider_status_entry (config : CDNConfig) (name : String)
    (hist : List (String × List CDNMetrics))
    (health : List (String × Bool)) : ProviderStatusEntry :=
  let recent_metrics := (alookup name hist).getD []
  match recent_metrics.getLast? with
  | some latest =>
      { enabled := config.enabled
        healthy := (alookup name health).getD false
        last_check := some latest.timestamp
        response_time_ms := some latest.response_time_ms
        cache_hit_ratio := some latest.cache_hit_ratio
        error_rate := some latest.error_rate
        bandwidth_mbps := some latest.bandwidth_mbps
        status := none }
  | none =>
      { enabled := config.enabled
        healthy := false
        last_check := none
        response_time_ms := none
        cache_hit_ratio := none
        error_rate := none
        bandwidth_mbps := none
        status := some "No metrics available" }

/-- `get_provider_status`: one entry per configured provider, keyed by the
enum value, built by `provider_status_entry`; the query is total. -/
def get_provider_status (configs : List (CDNProvider × CDNConfig))
    (hist : List (String × List CDNMetrics))
    (health : List (String × Bool)) : List (String × ProviderStatusEntry) :=
  configs.map fun pc => (pc.1.value, provider_status_entry pc.2 pc.1.value hist health)

/-- Random draws consumed by `_simulate_metrics`, one field per `random.*`
call, in call order. Their documented ranges are the arguments of the
`uniform`/`randint` calls. -/
structure SimDraws where
  rps : Rat
  bytes : Int
  cache_jitter : Rat
  latency_jitter : Rat
  error_jitter : Rat
  bw : Rat
  edges : Int
  cost : Rat
deriving DecidableEq, Repr

/-- The draws lie within the ranges of their `random.uniform`/`randint`
calls in `_simulate_metrics`. -/
def SimDraws.inRange (d : SimDraws) : Prop :=
  100 ≤ d.rps ∧ d.rps ≤ 1000 ∧
  1000000 ≤ d.bytes ∧ d.bytes ≤ 10000000 ∧
  -5 ≤ d.cache_jitter ∧ d.cache_jitter ≤ 5 ∧
  -30 ≤ d.latency_jitter ∧ d.latency_jitter ≤ 50 ∧
  -(1/20) ≤ d.error_jitter ∧ d.error_jitter ≤ 1/10 ∧
  50 ≤ d.bw ∧ d.bw ≤ 500 ∧
  50 ≤ d.edges ∧ d.edges ≤ 200 ∧
  1/20 ≤ d.cost ∧ d.cost ≤ 3/20

/-- The `base_performance` table of `_simulate_metrics`:
(latency, cache_hit, error_rate), with the `.get` default (200, 85, 0.5). -/
def base_performance (provider : String) : Rat × Rat × Rat :=
  if provider = "cloudflare" then (120, 92, 1/10)
  else if provider = "aws_cloudfront" then (150, 89, 1/5)
  else if provider = "azure_cdn" then (180, 87, 3/10)
  else if provider = "google_cdn" then (140, 90, 3/20)
  else (200, 85, 1/2)

/-- `_simulate_metrics`: base values per provider plus the random jitters,
with no clamping of any field. -/
def simulate_metrics (now : Int) (provider : String) (d : SimDraws) : CDNMetrics :=
  let base := base_performance provider
  { provider := provider
    timestamp := now
    requests_per_second := d.rps
    bytes_transferred := d.bytes
    cache_hit_ratio := base.2.1 + d.cache_jitter
    response_time_ms := base.1 + d.latency_jitter
    error_rate := base.2.2 + d.error_jitter
    bandwidth_mbps := d.bw
    edge_locations_active := d.edges
    cost_per_gb := d.cost }

/-- The totals block of the Cloudflare analytics response,
`result.totals.requests.{all, cached, uncached}` and
`result.totals.bandwidth.all` (absent keys default to 0 upstream). -/
structure CFTotals where
  requests_all : Int
  requests_cached : Int
  requests_uncached : Int
  bandwidth_all : Int
deriving DecidableEq, Repr

/-- `_parse_cloudflare_metrics`: the upstream totals are passed through the
stated arithmetic with no clamping and no rejection; the produced sample is
returned unconditionally. -/
def parse_cloudflare_metrics (now : Int) (t : CFTotals) : CDNMetrics :=
  { provider := "cloudflare"
    timestamp := now
    requests_per_second := (t.requests_all : Rat) / 3600
    bytes_transferred := t.bandwidth_all
    cache_hit_ratio := (t.requests_cached : Rat) / ((max t.requests_all 1 : Int) : Rat) * 100
    response_time_ms := 100
    error_rate := (t.requests_uncached : Rat) / ((max t.requests_all 1 : Int) : Rat) * 100
    bandwidth_mbps := (t.bandwidth_all : Rat) / (1024 * 1024) / 3600
    edge_locations_active := 100
    cost_per_gb := 1/10 }

/-- Modelled from the spec (§4.5): the backup-selection rule the design
document states — the first provider in the configured fallback order, other
than the failed one, that is both enabled and healthy. The source has no such
selector; this definition exists only to compare the code against it. -/
def spec_select_backup (fallback_order : List String)
    (enabled : List (String × Bool)) (health : List (String × Bool))
    (failed : String) : Option String :=
  (fallback_order.filter fun p =>
    p != failed && ((alookup p enabled).getD false) && ((alookup p health).getD false)).head?

/-- Timestamps of a metrics list are in non-decreasing order. -/
def tsSorted (l : List CDNMetrics) : Prop :=
  l.Pairwise fun a b => a.timestamp ≤ b.timestamp

/-- A minimal metric sample used for concrete inputs: only the fields the
analysed functions read are nonzero. -/
def mkSample (p : String) (ts : Int) (er rt ch : Rat) : CDNMetrics :=
  { provider := p, timestamp := ts, requests_per_second := 0,
    bytes_transferred := 0, cache_hit_ratio := ch, response_time_ms := rt,
    error_rate := er, bandwidth_mbps := 0, edge_locations_active := 0,
    cost_per_gb := 0 }

theorem CDNProvider.value_ofString {s : String} {p : CDNProvider}
    (h : CDNProvider.ofString s = some p) : p.value = s := by
  have := List.find?_some h
  simpa using this

/-- Concrete state for the failover scenario: cloudflare unhealthy with three
high-error samples inside the 5-minute window, aws_cloudfront healthy. -/
def exStateC1 : ServiceState :=
  { health_status := [("cloudflare", false), ("aws_cloudfront", true)]
    metrics_history := [("cloudflare",
      [mkSample "cloudflare" 999900 10 0 0,
       mkSample "cloudflare" 999940 10 0 0,
       mkSample "cloudflare" 999980 10 0 0])] }

/-- Health map for the backup-selection comparison: fastly first and healthy
but disabled, aws_cloudfront healthy and enabled. -/
def exHealthC2 : List (String × Bool) := [("fastly", true), ("aws_cloudfront", true)]

/-- Enabled flags of the providers in `exHealthC2`. -/
def exEnabledC2 : List (String × Bool) := [("fastly", false), ("aws_cloudfront", true)]

/-- Configured fallback order of the default configuration file. -/
def exFallbackC2 : List String := ["aws_cloudfront", "azure_cdn", "google_cdn"]

/-- Metrics store whose insertion order is opposite to its score order:
zeta scores 100, alpha scores 50. -/
def exHistC5 : List (String × List CDNMetrics) :=
  [("zeta", [mkSample "zeta" 9800 0 100 100]),
   ("alpha", [mkSample "alpha" 9800 0 50 100])]

/-- Metrics store where zeta and alpha tie with score 100. -/
def exHistC5tie : List (String × List CDNMetrics) :=
  [("zeta", [mkSample "zeta" 9800 0 100 100]),
   ("alpha", [mkSample "alpha" 9800 0 100 100])]

/-- Cloudflare totals with a negative bandwidth total and a cached count
above the total count. -/
def exTotalsC7 : CFTotals :=
  { requests_all := 1, requests_cached := 2, requests_uncached := 0,
    bandwidth_all := -(3600 * 1024 * 1024) }

/-- An empty raw provider configuration (all keys absent). -/
def exRawC6 : RawCDNConfig := {}

/-- C6 counterexample: a configuration holding the unknown name "bogus" next
to "cloudflare" loads without any error; the unknown entry is dropped while
cloudflare is parsed, refuting that loading fails on an unknown name. -/
theorem parse_configurations_accepts_unknown_name :
    parse_configurations [("bogus", exRawC6), ("cloudflare", exRawC6)] =
      [(CDNProvider.cloudflare,
        { provider := .cloudflare, api_key := "", regions := ["global"],
          enabled := true })] := by
  decide

/-- C6 (amended): `_parse_configurations` never fails on an unknown provider
name; it loads exactly the entries whose name is a known enum value, in
configuration order, and silently (warning only) skips the rest. -/
theorem parse_configurations_loads_known_entries
    (cfg : List (String × RawCDNConfig)) :
    ((parse_configurations cfg).map fun e => e.1.value)
      = (cfg.map Prod.fst).filter fun n => (CDNProvider.ofString n).isSome := by
  induction cfg with
  | nil => rfl
  | cons e rest ih =>
    rcases h : CDNProvider.ofString e.1 with _ | p
    · simp [parse_configurations, parseProviderEntry, List.filterMap_cons, h,
        List.filter_cons] at ih ⊢
      exact ih
    · simp [parse_configurations, parseProviderEntry, List.filterMap_cons, h,
        List.filter_cons] at ih ⊢
      exact ⟨CDNProvider.value_ofString h, ih⟩

/-- C8: classification of a health probe. A status in [200,400) yields a
healthy result; a status at or above 400 yields an unhealthy one; a raised
exception yields an unhealthy result carrying the exception text as the error
message, and `health_check_endpoint` is a total function (the exception never
escapes into the monitoring loop). -/
theorem health_check_endpoint_classification
    (provider endpoint : String) (elapsed_ms : Rat) :
    (∀ s : Nat, 200 ≤ s → s < 400 →
      (health_check_endpoint provider endpoint elapsed_ms (.response s)).is_healthy
        = true)
  ∧ (∀ s : Nat, 400 ≤ s →
      (health_check_endpoint provider endpoint elapsed_ms (.response s)).is_healthy
        = false)
  ∧ (∀ msg : String,
      (health_check_endpoint provider endpoint elapsed_ms (.failure msg)).is_healthy
        = false
    ∧ (health_check_endpoint provider endpoint elapsed_ms (.failure msg)).error_message
        = some msg) := by
  refine ⟨fun s h1 h2 => ?_, fun s h => ?_, fun msg => ⟨rfl, rfl⟩⟩
  · simp only [health_check_endpoint, decide_eq_true_eq]
    omega
  · simp only [health_check_endpoint, decide_eq_false_iff_not, not_and, not_lt]
    omega

/-- C10: the provider-status query returns one entry for every configured
provider (keyed by the enum value, disabled providers included), and a
provider with no stored samples gets the entry with `healthy = False`,
`last_check = None` and the explicit "No metrics available" indicator; the
query is a total function. -/
theorem get_provider_status_covers_all_providers
    (configs : List (CDNProvider × CDNConfig))
    (hist : List (String × List CDNMetrics))
    (health : List (String × Bool)) :
    ((get_provider_status configs hist health).map Prod.fst
        = configs.map fun pc => pc.1.value)
  ∧ (∀ pc ∈ configs, (alookup pc.1.value hist).getD [] = [] →
      (pc.1.value,
        { enabled := pc.2.enabled, healthy := false, last_check := none,
          response_time_ms := none, cache_hit_ratio := none, error_rate := none,
          bandwidth_mbps := none,
          status := some "No metrics available" : ProviderStatusEntry })
        ∈ get_provider_status configs hist health) := by
  constructor
  · simp [get_provider_status]
  · intro pc hmem hempty
    have : provider_status_entry pc.2 pc.1.value hist health =
        { enabled := pc.2.enabled, healthy := false, last_check := none,
          response_time_ms := none, cache_hit_ratio := none, error_rate := none,
          bandwidth_mbps := none, status := some "No metrics available" } := by
      simp [provider_status_entry, hempty]
    rw [← this]
    exact List.mem_map.mpr ⟨pc, hmem, rfl⟩

/-- C2 counterexample: with fastly first in the health map (healthy but
disabled) and aws_cloudfront healthy and enabled, the code selects fastly as
backup, while the spec's rule (first enabled healthy provider in the
configured fallback order) selects aws_cloudfront. -/
theorem trigger_failover_ignores_enabled_and_fallback :
    trigger_failover exHealthC2 "cloudflare" = some "fastly"
  ∧ alookup "fastly" exEnabledC2 = some false
  ∧ spec_select_backup exFallbackC2 exEnabledC2 exHealthC2 "cloudflare"
      = some "aws_cloudfront"
  ∧ some "fastly" ≠ some "aws_cloudfront" := by
  decide

/-- C2 (amended): `_trigger_failover` selects the first provider of the
health-status map, in insertion order, that differs from the failed provider
and is healthy — ignoring enabled flags and any configured fallback order —
and selects nothing (logging only, never raising) when no such provider
exists. -/
theorem trigger_failover_first_healthy (health : List (String × Bool))
    (failed_provider : String) :
    (trigger_failover health failed_provider = none ↔
        ∀ pb ∈ health, pb.1 = failed_provider ∨ pb.2 = false)
  ∧ (∀ b, trigger_failover health failed_provider = some b →
        b ≠ failed_provider ∧ (b, true) ∈ health) := by
  induction health with
  | nil => simp [trigger_failover]
  | cons e rest ih =>
    obtain ⟨p, flag⟩ := e
    by_cases hcond : p ≠ failed_provider ∧ flag = true
    · obtain ⟨hp, hflag⟩ := hcond
      subst hflag
      have heq : trigger_failover ((p, true) :: rest) failed_provider = some p := by
        simp [trigger_failover, List.filter_cons, hp]
      constructor
      · rw [heq]
        constructor
        · intro h; cases h
        · intro h
          rcases h (p, true) (List.mem_cons_self _ _) with h1 | h2
          · exact absurd h1 hp
          · cases h2
      · intro b hb
        rw [heq, Option.some_inj] at hb
        subst hb
        exact ⟨hp, List.mem_cons_self _ _⟩
    · have hsplit : p = failed_provider ∨ flag = false := by
        rcases not_and_or.mp hcond with h | h
        · exact Or.inl (not_not.mp h)
        · exact Or.inr (by simpa using h)
      have hb : (p != failed_provider && flag) = false := by
        rcases hsplit with h | h
        · simp [h]
        · simp [h]
      have hstep : trigger_failover ((p, flag) :: rest) failed_provider
          = trigger_failover rest failed_provider := by
        simp [trigger_failover, List.filter_cons, hb]
      constructor
      · rw [hstep, ih.1]
        constructor
        · intro h pb hpb
          rcases List.mem_cons.mp hpb with rfl | hpb'
          · exact hsplit
          · exact h pb hpb'
        · intro h pb hpb
          exact h pb (List.mem_cons_of_mem _ hpb)
      · intro b hb
        rw [hstep] at hb
        obtain ⟨hne, hmem⟩ := ih.2 b hb
        exact ⟨hne, List.mem_cons_of_mem _ hmem⟩

/-- Soundness of the failover condition scan: a returned provider is recorded
unhealthy and has at least 3 stored samples within the 5-minute window whose
error rate exceeds 5. -/
theorem check_failover_conditions_sound {now : Int}
    {hist : List (String × List CDNMetrics)} {health : List (String × Bool)}
    {p : String} (h : check_failover_conditions now hist health = some p) :
    (p, false) ∈ health
  ∧ 3 ≤ (((alookup p hist).getD []).filter fun m =>
      decide (now - FAILOVER_WINDOW < m.timestamp)
        && decide ((5 : Rat) < m.error_rate)).length := by
  induction health with
  | nil => cases h
  | cons e rest ih =>
    obtain ⟨q, flag⟩ := e
    by_cases hflag : flag = true
    · subst hflag
      rw [show check_failover_conditions now hist ((q, true) :: rest)
            = check_failover_conditions now hist rest from rfl] at h
      obtain ⟨hmem, hlen⟩ := ih h
      exact ⟨List.mem_cons_of_mem _ hmem, hlen⟩
    · have hflag' : flag = false := by simpa using hflag
      subst hflag'
      by_cases hempty : ((alookup q hist).getD []).isEmpty = true
      · rw [show check_failover_conditions now hist ((q, false) :: rest)
              = check_failover_conditions now hist rest from by
            simp [check_failover_conditions, hempty]] at h
        obtain ⟨hmem, hlen⟩ := ih h
        exact ⟨List.mem_cons_of_mem _ hmem, hlen⟩
      · by_cases hlen : 3 ≤ (((alookup q hist).getD []).filter fun m =>
            decide (now - FAILOVER_WINDOW < m.timestamp)
              && decide ((5 : Rat) < m.error_rate)).length
        · have : check_failover_conditions now hist ((q, false) :: rest) = some q := by
            simp [check_failover_conditions, hempty, hlen]
          rw [this, Option.some_inj] at h
          subst h
          exact ⟨List.mem_cons_self _ _, hlen⟩
        · rw [show check_failover_conditions now hist ((q, false) :: rest)
                = check_failover_conditions now hist rest from by
              simp [check_failover_conditions, hempty, hlen]] at h
          obtain ⟨hmem, hl⟩ := ih h
          exact ⟨List.mem_cons_of_mem _ hmem, hl⟩

/-- C1 counterexample: in `exStateC1` (cloudflare unhealthy, three high-error
samples in the window, aws_cloudfront healthy) the monitor invokes the
failover action at the tick at t = 1000000, leaves the service state
unchanged, and invokes the very same action again at the next tick at
t = 1000030 — there is no state machine and no once-per-episode guard, so a
further consecutive unhealthy observation does re-invoke the action. -/
theorem failover_action_reinvoked_next_tick :
    (failover_tick 1000000 exStateC1).2 = some ("cloudflare", some "aws_cloudfront")
  ∧ (failover_tick 1000000 exStateC1).1 = exStateC1
  ∧ (failover_tick 1000030 (failover_tick 1000000 exStateC1).1).2
      = some ("cloudflare", some "aws_cloudfront") := by
  decide

/-- C1 (amended): whenever the failover condition (provider recorded
unhealthy with at least 3 samples of error rate above 5 inside the 5-minute
window) selects a provider, the monitor tick invokes the failover action with
the first healthy other provider as backup and leaves the service state
unchanged; hence a later tick on which the condition still selects the same
provider invokes the action again — once per tick while the condition
persists, not once per failover episode. -/
theorem failover_tick_invokes_on_every_tick
    (now now' : Int) (s : ServiceState) (failed : String)
    (h : check_failover_conditions now s.metrics_history s.health_status = some failed)
    (h' : check_failover_conditions now' s.metrics_history s.health_status = some failed) :
    (failed, false) ∈ s.health_status
  ∧ (failover_tick now s).2 = some (failed, trigger_failover s.health_status failed)
  ∧ (failover_tick now s).1 = s
  ∧ (failover_tick now' (failover_tick now s).1).2
      = some (failed, trigger_failover s.health_status failed) := by
  refine ⟨(check_failover_conditions_sound h).1, ?_, ?_, ?_⟩ <;>
    simp [failover_tick, h, h']

/-- Witness for the amended C1 theorem at the concrete state `exStateC1`. -/
theorem failover_tick_invokes_on_every_tick_witness :
    (("cloudflare", false) ∈ exStateC1.health_status)
  ∧ (failover_tick 1000000 exStateC1).2
      = some ("cloudflare", trigger_failover exStateC1.health_status "cloudflare")
  ∧ (failover_tick 1000000 exStateC1).1 = exStateC1
  ∧ (failover_tick 1000030 (failover_tick 1000000 exStateC1).1).2
      = some ("cloudflare", trigger_failover exStateC1.health_status "cloudflare") :=
  failover_tick_invokes_on_every_tick 1000000 1000030 exStateC1 "cloudflare"
    (by decide) (by decide)

theorem alookup_mem {k : String} {v : α} :
    ∀ {l : List (String × α)}, alookup k l = some v → (k, v) ∈ l
  | [], h => by cases h
  | e :: rest, h => by
    by_cases he : e.1 = k
    · rw [alookup, if_pos he, Option.some_inj] at h
      subst h
      obtain ⟨k0, v0⟩ := e
      obtain rfl : k0 = k := he
      exact List.mem_cons_self _ _
    · rw [alookup, if_neg he] at h
      exact List.mem_cons_of_mem _ (alookup_mem h)

theorem mem_setAssoc {k : String} {v : α} {e : String × α} :
    ∀ {l : List (String × α)}, e ∈ setAssoc k v l → e = (k, v) ∨ e ∈ l
  | [], h => by
    rcases List.mem_singleton.mp h with rfl
    exact Or.inl rfl
  | e0 :: rest, h => by
    by_cases he : e0.1 = k
    · rw [setAssoc, if_pos he] at h
      rcases List.mem_cons.mp h with rfl | hmem
      · exact Or.inl rfl
      · exact Or.inr (List.mem_cons_of_mem _ hmem)
    · rw [setAssoc, if_neg he] at h
      rcases List.mem_cons.mp h with rfl | hmem
      · exact Or.inr (List.mem_cons_self _ _)
      · rcases mem_setAssoc hmem with h1 | h2
        · exact Or.inl h1
        · exact Or.inr (List.mem_cons_of_mem _ h2)

theorem alookup_setAssoc_self (k : String) (v : α) :
    ∀ l : List (String × α), alookup k (setAssoc k v l) = some v
  | [] => by simp [setAssoc, alookup]
  | e :: rest => by
    by_cases he : e.1 = k
    · rw [setAssoc, if_pos he, alookup, if_pos rfl]
    · rw [setAssoc, if_neg he, alookup, if_neg he]
      exact alookup_setAssoc_self k v rest

/-- C3: appending a sample (with a timestamp at least that of every stored
sample of its provider) and pruning preserves the time-ordering of every
provider's history, and after the prune every stored sample of the updated
provider is strictly newer than 24 hours before the prune time. -/
theorem store_metrics_sorted_and_pruned
    (now : Int) (hist : List (String × List CDNMetrics)) (m : CDNMetrics)
    (hsorted : ∀ e ∈ hist, tsSorted e.2)
    (hmono : ∀ s ∈ (alookup m.provider hist).getD [], s.timestamp ≤ m.timestamp) :
    (∀ e ∈ store_metrics now hist m, tsSorted e.2)
  ∧ (∀ s ∈ (alookup m.provider (store_metrics now hist m)).getD [],
      now - RETENTION < s.timestamp) := by
  have holdsorted : tsSorted ((alookup m.provider hist).getD []) := by
    cases halo : alookup m.provider hist with
    | none => simp [tsSorted]
    | some l =>
      simpa using hsorted (m.provider, l) (alookup_mem halo)
  have happ : tsSorted (((alookup m.provider hist).getD []) ++ [m]) := by
    rw [tsSorted, List.pairwise_append]
    refine ⟨holdsorted, List.pairwise_singleton _ _, ?_⟩
    intro a ha b hb
    rcases List.mem_singleton.mp hb with rfl
    exact hmono a ha
  have hnew : tsSorted ((((alookup m.provider hist).getD []) ++ [m]).filter
      fun s => decide (now - RETENTION < s.timestamp)) :=
    List.Pairwise.sublist (List.filter_sublist _) happ
  constructor
  · intro e he
    rcases mem_setAssoc he with rfl | hmem
    · exact hnew
    · exact hsorted e hmem
  · rw [store_metrics, alookup_setAssoc_self, Option.getD_some]
    intro s hs
    exact of_decide_eq_true (List.mem_filter.mp hs).2

/-- Witness for C3 at the empty history and a fresh sample. -/
theorem store_metrics_sorted_and_pruned_witness :
    (∀ e ∈ store_metrics 0 [] (mkSample "cloudflare" 0 0 0 0), tsSorted e.2)
  ∧ (∀ s ∈ (alookup (mkSample "cloudflare" 0 0 0 0).provider
        (store_metrics 0 [] (mkSample "cloudflare" 0 0 0 0))).getD [],
      0 - RETENTION < s.timestamp) :=
  store_metrics_sorted_and_pruned 0 [] (mkSample "cloudflare" 0 0 0 0)
    (by simp) (by simp [alookup])

/-- C9: for a provider with at least one sample strictly inside the 24-hour
window, the cost summary reports exactly the sum of in-window bytes divided
by 2^30, the average in-window cost per GB, and their product; out-of-window
samples contribute nothing, and the computation is a pure function of the
store. -/
theorem analyze_cost_efficiency_windowed
    (now : Int) (hist : List (String × List CDNMetrics)) (p : String)
    (l : List CDNMetrics)
    (hmem : (p, l) ∈ hist)
    (hkeys : hist.Pairwise fun a b => a.1 ≠ b.1)
    (hrecent : recentWindow now 86400 l ≠ []) :
    alookup p (analyze_cost_efficiency now hist)
      = some
        { total_gb_24h :=
            (((recentWindow now 86400 l).map CDNMetrics.bytes_transferred).sum : Rat) / 2 ^ 30
          cost_per_gb :=
            ((recentWindow now 86400 l).map CDNMetrics.cost_per_gb).sum
              / ((recentWindow now 86400 l).length : Rat)
          estimated_daily_cost :=
            (((recentWindow now 86400 l).map CDNMetrics.bytes_transferred).sum : Rat) / 2 ^ 30
              * (((recentWindow now 86400 l).map CDNMetrics.cost_per_gb).sum
                  / ((recentWindow now 86400 l).length : Rat)) } := by
  have hlnil : l ≠ [] := by
    intro h
    subst h
    exact hrecent rfl
  have hl : l.isEmpty = false := by
    cases l with
    | nil => exact absurd rfl hlnil
    | cons a as => rfl
  have hr : (recentWindow now 86400 l).isEmpty = false := by
    cases h : recentWindow now 86400 l with
    | nil => exact absurd h hrecent
    | cons a as => rfl
  induction hist with
  | nil => cases hmem
  | cons e rest ih =>
    rcases List.mem_cons.mp hmem with heq | hmem'
    · subst heq
      simp [analyze_cost_efficiency, hl, hr, alookup]
    · have hne : e.1 ≠ p := (List.pairwise_cons.mp hkeys).1 (p, l) hmem'
      have htail := ih hmem' (List.pairwise_cons.mp hkeys).2
      obtain ⟨q, l0⟩ := e
      by_cases h0 : l0.isEmpty = true
      · rw [show analyze_cost_efficiency now ((q, l0) :: rest)
              = analyze_cost_efficiency now rest from by
            simp [analyze_cost_efficiency, h0]]
        exact htail
      · by_cases h1 : (recentWindow now 86400 l0).isEmpty = true
        · rw [show analyze_cost_efficiency now ((q, l0) :: rest)
                = analyze_cost_efficiency now rest from by
              simp [analyze_cost_efficiency, h0, h1]]
          exact htail
        · have hstep : analyze_cost_efficiency now ((q, l0) :: rest)
              = (q,
                  { total_gb_24h :=
                      (((recentWindow now 86400 l0).map CDNMetrics.bytes_transferred).sum : Rat) / 2 ^ 30
                    cost_per_gb :=
                      ((recentWindow now 86400 l0).map CDNMetrics.cost_per_gb).sum
                        / ((recentWindow now 86400 l0).length : Rat)
                    estimated_daily_cost :=
                      (((recentWindow now 86400 l0).map CDNMetrics.bytes_transferred).sum : Rat) / 2 ^ 30
                        * (((recentWindow now 86400 l0).map CDNMetrics.cost_per_gb).sum
                            / ((recentWindow now 86400 l0).length : Rat)) })
                :: analyze_cost_efficiency now rest := by
            simp [analyze_cost_efficiency, h0, h1]
          rw [hstep, alookup, if_neg hne]
          exact htail

/-- Witness for C9 at a one-provider store with one in-window sample. -/
theorem analyze_cost_efficiency_windowed_witness :
    alookup "cloudflare"
        (analyze_cost_efficiency 0 [("cloudflare", [mkSample "cloudflare" 0 0 0 0])])
      = some
        { total_gb_24h :=
            (((recentWindow 0 86400 [mkSample "cloudflare" 0 0 0 0]).map
                CDNMetrics.bytes_transferred).sum : Rat) / 2 ^ 30
          cost_per_gb :=
            ((recentWindow 0 86400 [mkSample "cloudflare" 0 0 0 0]).map
                CDNMetrics.cost_per_gb).sum
              / ((recentWindow 0 86400 [mkSample "cloudflare" 0 0 0 0]).length : Rat)
          estimated_daily_cost :=
            (((recentWindow 0 86400 [mkSample "cloudflare" 0 0 0 0]).map
                CDNMetrics.bytes_transferred).sum : Rat) / 2 ^ 30
              * (((recentWindow 0 86400 [mkSample "cloudflare" 0 0 0 0]).map
                    CDNMetrics.cost_per_gb).sum
                  / ((recentWindow 0 86400 [mkSample "cloudflare" 0 0 0 0]).length : Rat)) } :=
  analyze_cost_efficiency_windowed 0 [("cloudflare", [mkSample "cloudflare" 0 0 0 0])]
    "cloudflare" [mkSample "cloudflare" 0 0 0 0]
    (by simp) (by simp) (by decide)

theorem minFirst_mem (x : String × Rat) (xs : List (String × Rat)) :
    minFirst x xs ∈ x :: xs := by
  induction xs generalizing x with
  | nil => exact List.mem_singleton.mpr rfl
  | cons y ys ih =>
    have h : minFirst (if y.2 < x.2 then y else x) ys
        ∈ (if y.2 < x.2 then y else x) :: ys := ih _
    have hm : minFirst x (y :: ys) = minFirst (if y.2 < x.2 then y else x) ys := rfl
    rw [hm]
    rcases List.mem_cons.mp h with heq | hmem
    · rw [heq]
      by_cases hlt : y.2 < x.2
      · simp [hlt]
      · simp [hlt]
    · exact List.mem_cons_of_mem _ (List.mem_cons_of_mem _ hmem)

theorem minFirst_le (x : String × Rat) (xs : List (String × Rat)) :
    ∀ z ∈ x :: xs, (minFirst x xs).2 ≤ z.2 := by
  induction xs generalizing x with
  | nil =>
    intro z hz
    rcases List.mem_singleton.mp hz with rfl
    exact le_refl _
  | cons y ys ih =>
    intro z hz
    have hstep : (if y.2 < x.2 then y else x).2 ≤ x.2
        ∧ (if y.2 < x.2 then y else x).2 ≤ y.2 := by
      by_cases hlt : y.2 < x.2
      · constructor
        · simp only [if_pos hlt]
          exact le_of_lt hlt
        · simp [hlt]
      · constructor
        · simp [hlt]
        · simp only [if_neg hlt]
          exact le_of_not_lt hlt
    have hm : minFirst x (y :: ys) = minFirst (if y.2 < x.2 then y else x) ys := rfl
    rcases List.mem_cons.mp hz with rfl | hz'
    · rw [hm]
      exact le_trans (ih _ _ (List.mem_cons_self _ _)) hstep.1
    · rcases List.mem_cons.mp hz' with rfl | hz''
      · rw [hm]
        exact le_trans (ih _ _ (List.mem_cons_self _ _)) hstep.2
      · rw [hm]
        exact ih _ z (List.mem_cons_of_mem _ hz'')

theorem provider_scores_sound (now : Int) :
    ∀ hist : List (String × List CDNMetrics), ∀ p s,
      (p, s) ∈ provider_scores now hist →
        ∃ l, (p, l) ∈ hist ∧ recentWindow now 3600 l ≠ []
          ∧ s = compositeScore (recentWindow now 3600 l)
  | [], p, s, h => by cases h
  | e :: rest, p, s, h => by
    by_cases h0 : e.2.isEmpty = true
    · rw [show provider_scores now (e :: rest) = provider_scores now rest from by
          simp [provider_scores, h0]] at h
      obtain ⟨l, hmem, hne, hs⟩ := provider_scores_sound now rest p s h
      exact ⟨l, List.mem_cons_of_mem _ hmem, hne, hs⟩
    · by_cases h1 : (recentWindow now 3600 e.2).isEmpty = true
      · rw [show provider_scores now (e :: rest) = provider_scores now rest from by
            simp [provider_scores, h0, h1]] at h
        obtain ⟨l, hmem, hne, hs⟩ := provider_scores_sound now rest p s h
        exact ⟨l, List.mem_cons_of_mem _ hmem, hne, hs⟩
      · rw [show provider_scores now (e :: rest)
              = (e.1, compositeScore (recentWindow now 3600 e.2))
                :: provider_scores now rest from by
            simp [provider_scores, h0, h1]] at h
        rcases List.mem_cons.mp h with heq | hmem
        · obtain ⟨rfl, rfl⟩ := Prod.mk.injEq .. ▸ heq
          exact ⟨e.2, by simp,
            fun hnil => h1 (List.isEmpty_iff.mpr hnil), rfl⟩
        · obtain ⟨l, hmem', hne, hs⟩ := provider_scores_sound now rest p s hmem
          exact ⟨l, List.mem_cons_of_mem _ hmem', hne, hs⟩

theorem provider_scores_nil_iff (now : Int) :
    ∀ hist : List (String × List CDNMetrics),
      provider_scores now hist = [] ↔ ∀ e ∈ hist, recentWindow now 3600 e.2 = []
  | [] => by simp [provider_scores]
  | e :: rest => by
    by_cases h0 : e.2.isEmpty = true
    · rw [show provider_scores now (e :: rest) = provider_scores now rest from by
          simp [provider_scores, h0]]
      rw [provider_scores_nil_iff now rest]
      have he2 : e.2 = [] := List.isEmpty_iff.mp h0
      constructor
      · intro h x hx
        rcases List.mem_cons.mp hx with rfl | hx'
        · simp [he2, recentWindow]
        · exact h x hx'
      · intro h x hx
        exact h x (List.mem_cons_of_mem _ hx)
    · by_cases h1 : (recentWindow now 3600 e.2).isEmpty = true
      · rw [show provider_scores now (e :: rest) = provider_scores now rest from by
            simp [provider_scores, h0, h1]]
        rw [provider_scores_nil_iff now rest]
        constructor
        · intro h x hx
          rcases List.mem_cons.mp hx with rfl | hx'
          · exact List.isEmpty_iff.mp h1
          · exact h x hx'
        · intro h x hx
          exact h x (List.mem_cons_of_mem _ hx)
      · rw [show provider_scores now (e :: rest)
              = (e.1, compositeScore (recentWindow now 3600 e.2))
                :: provider_scores now rest from by
            simp [provider_scores, h0, h1]]
        constructor
        · intro h
          cases h
        · intro h
          exact absurd (List.isEmpty_iff.mpr (h e (List.mem_cons_self _ _))) (by exact h1)

theorem provider_scores_complete (now : Int) :
    ∀ hist : List (String × List CDNMetrics), ∀ p l,
      (p, l) ∈ hist → recentWindow now 3600 l ≠ [] →
        (p, compositeScore (recentWindow now 3600 l)) ∈ provider_scores now hist
  | [], p, l, hmem, _ => by cases hmem
  | e :: rest, p, l, hmem, hne => by
    rcases List.mem_cons.mp hmem with heq | hmem'
    · have h0 : e.2.isEmpty ≠ true := by
        rw [← heq]
        intro h
        have hl : l = [] := List.isEmpty_iff.mp h
        exact hne (by simp [hl, recentWindow])
      have h1 : (recentWindow now 3600 e.2).isEmpty ≠ true := by
        rw [← heq]
        intro h
        exact hne (List.isEmpty_iff.mp h)
      rw [show provider_scores now (e :: rest)
            = (e.1, compositeScore (recentWindow now 3600 e.2))
              :: provider_scores now rest from by
          simp [provider_scores, h0, h1]]
      rw [← heq]
      exact List.mem_cons_self _ _
    · have htail := provider_scores_complete now rest p l hmem' hne
      by_cases h0 : e.2.isEmpty = true
      · rw [show provider_scores now (e :: rest) = provider_scores now rest from by
            simp [provider_scores, h0]]
        exact htail
      · by_cases h1 : (recentWindow now 3600 e.2).isEmpty = true
        · rw [show provider_scores now (e :: rest) = provider_scores now rest from by
              simp [provider_scores, h0, h1]]
          exact htail
        · rw [show provider_scores now (e :: rest)
                = (e.1, compositeScore (recentWindow now 3600 e.2))
                  :: provider_scores now rest from by
              simp [provider_scores, h0, h1]]
          exact List.mem_cons_of_mem _ htail

/-- C4: every entry of the score map is the composite score
`avg(response_time_ms) + (100 - avg(cache_hit_ratio)) * 2 + avg(error_rate) * 10`
over exactly that provider's samples inside the 1-hour window; the best
performer is `None` exactly when no provider has an in-window sample, and an
answered best performer carries a score at most every ranked provider's
score. -/
theorem analyze_best_performer_minimal (now : Int)
    (hist : List (String × List CDNMetrics)) :
    (∀ p s, (p, s) ∈ provider_scores now hist →
        ∃ l, (p, l) ∈ hist ∧ recentWindow now 3600 l ≠ []
          ∧ s = compositeScore (recentWindow now 3600 l))
  ∧ (∀ p l, (p, l) ∈ hist → recentWindow now 3600 l ≠ [] →
        (p, compositeScore (recentWindow now 3600 l)) ∈ provider_scores now hist)
  ∧ (analyze_best_performer now hist = none ↔
        ∀ e ∈ hist, recentWindow now 3600 e.2 = [])
  ∧ (∀ p, analyze_best_performer now hist = some p →
        ∃ s, (p, s) ∈ provider_scores now hist
          ∧ ∀ e ∈ provider_scores now hist, s ≤ e.2) := by
  refine ⟨provider_scores_sound now hist, provider_scores_complete now hist, ?_, ?_⟩
  · rw [← provider_scores_nil_iff now hist]
    cases hs : provider_scores now hist with
    | nil => simp [analyze_best_performer, hs]
    | cons x xs =>
      simp [analyze_best_performer, hs]
  · intro p hp
    cases hs : provider_scores now hist with
    | nil =>
      rw [analyze_best_performer, hs] at hp
      cases hp
    | cons x xs =>
      rw [analyze_best_performer, hs, Option.some_inj] at hp
      refine ⟨(minFirst x xs).2, ?_, ?_⟩
      · rw [← hp]
        simpa using minFirst_mem x xs
      · exact minFirst_le x xs

/-- C5 counterexample: `exHistC5` makes the score map come out in insertion
order [zeta ↦ 100, alpha ↦ 50], which is not ascending by score; and in
`exHistC5tie` both providers score 100 yet the best performer is "zeta", the
first-inserted provider, not the lexicographically smaller "alpha". -/
theorem provider_scores_unsorted_and_tie_by_insertion :
    provider_scores 10000 exHistC5 = [("zeta", 100), ("alpha", 50)]
  ∧ ¬((100 : Rat) ≤ 50)
  ∧ alookup "zeta" (provider_scores 10000 exHistC5tie) = some 100
  ∧ alookup "alpha" (provider_scores 10000 exHistC5tie) = some 100
  ∧ analyze_best_performer 10000 exHistC5tie = some "zeta"
  ∧ "zeta" ≠ "alpha" := by
  refine ⟨?_, by norm_num, ?_, ?_, ?_, by decide⟩
  · simp [provider_scores, exHistC5, compositeScore, ratAvg, recentWindow, mkSample]
  · simp [alookup, provider_scores, exHistC5tie, compositeScore, ratAvg,
      recentWindow, mkSample]
  · simp [alookup, provider_scores, exHistC5tie, compositeScore, ratAvg,
      recentWindow, mkSample]
  · simp [analyze_best_performer, provider_scores, exHistC5tie, compositeScore,
      ratAvg, recentWindow, mkSample, minFirst]

/-- C5 (amended): the score map excludes every provider with zero in-window
samples and lists the remaining providers in metrics-store insertion order
(not sorted by score); it is a pure function of the store, so equal stores
give identical output, but ties for the best performer resolve to the
first-inserted provider, not lexicographically. -/
theorem provider_scores_follow_insertion_order (now : Int) :
    ∀ hist : List (String × List CDNMetrics),
      (provider_scores now hist).map Prod.fst
        = (hist.filter fun e => !(recentWindow now 3600 e.2).isEmpty).map Prod.fst
  | [] => rfl
  | e :: rest => by
    by_cases h0 : e.2.isEmpty = true
    · have he2 : e.2 = [] := List.isEmpty_iff.mp h0
      have hr : (recentWindow now 3600 e.2).isEmpty = true := by
        simp [he2, recentWindow]
      rw [show provider_scores now (e :: rest) = provider_scores now rest from by
          simp [provider_scores, h0]]
      rw [List.filter_cons]
      simp only [hr, Bool.not_true]
      simpa using provider_scores_follow_insertion_order now rest
    · by_cases h1 : (recentWindow now 3600 e.2).isEmpty = true
      · rw [show provider_scores now (e :: rest) = provider_scores now rest from by
            simp [provider_scores, h0, h1]]
        rw [List.filter_cons]
        simp only [h1, Bool.not_true]
        simpa using provider_scores_follow_insertion_order now rest
      · have h1' : (recentWindow now 3600 e.2).isEmpty = false :=
          Bool.not_eq_true _ ▸ h1
        rw [show provider_scores now (e :: rest)
              = (e.1, compositeScore (recentWindow now 3600 e.2))
                :: provider_scores now rest from by
            simp [provider_scores, h0, h1]]
        rw [List.filter_cons]
        simp only [h1', Bool.not_false]
        simp only [if_true, List.map_cons]
        rw [provider_scores_follow_insertion_order now rest]

theorem base_performance_bounds (provider : String) :
    120 ≤ (base_performance provider).1 ∧ (base_performance provider).1 ≤ 200
  ∧ 85 ≤ (base_performance provider).2.1 ∧ (base_performance provider).2.1 ≤ 92
  ∧ 1/10 ≤ (base_performance provider).2.2 ∧ (base_performance provider).2.2 ≤ 1/2 := by
  rw [base_performance]
  split_ifs <;> norm_num

/-- C7 counterexample: a Cloudflare response whose bandwidth total is
negative and whose cached count exceeds the total count is parsed into a
sample with `bandwidth_mbps = -1 < 0` and `cache_hit_ratio = 200 > 100` — no
clamping to `[0,100]` or to non-negative values takes place. -/
theorem parse_cloudflare_metrics_not_clamped :
    (parse_cloudflare_metrics 0 exTotalsC7).bandwidth_mbps = -1
  ∧ (parse_cloudflare_metrics 0 exTotalsC7).cache_hit_ratio = 200 := by
  constructor
  · simp [parse_cloudflare_metrics, exTotalsC7]
    norm_num
  · simp [parse_cloudflare_metrics, exTotalsC7]
    norm_num

/-- C7 (amended): simulated samples do satisfy the bounds — whenever the
random draws lie in their documented ranges, cache-hit ratio and error rate
land in [0,100] and response time and bandwidth are non-negative — but that
is a property of the draw ranges, not of clamping: samples parsed from a
Cloudflare response pass the upstream values through unclamped, so the parsed
bandwidth is negative exactly when the upstream bandwidth total is, and the
sample is produced regardless. -/
theorem simulate_in_bounds_parse_unclamped :
    (∀ (now : Int) (provider : String) (d : SimDraws), d.inRange →
        0 ≤ (simulate_metrics now provider d).cache_hit_ratio
      ∧ (simulate_metrics now provider d).cache_hit_ratio ≤ 100
      ∧ 0 ≤ (simulate_metrics now provider d).error_rate
      ∧ (simulate_metrics now provider d).error_rate ≤ 100
      ∧ 0 ≤ (simulate_metrics now provider d).response_time_ms
      ∧ 0 ≤ (simulate_metrics now provider d).bandwidth_mbps)
  ∧ (∀ (now : Int) (t : CFTotals),
      (parse_cloudflare_metrics now t).bandwidth_mbps < 0 ↔ t.bandwidth_all < 0) := by
  constructor
  · intro now provider d hd
    obtain ⟨hrps1, hrps2, hb1, hb2, hc1, hc2, hl1, hl2, he1, he2, hw1, hw2, hrest⟩ := hd
    obtain ⟨hbase1, hbase2, hbase3, hbase4, hbase5, hbase6⟩ :=
      base_performance_bounds provider
    simp only [simulate_metrics]
    refine ⟨by linarith, by linarith, by linarith, by linarith, by linarith, by linarith⟩
  · intro now t
    simp only [parse_cloudflare_metrics]
    have hpos : (0 : Rat) < 1024 * 1024 * 3600 := by norm_num
    rw [div_div, div_lt_iff₀ hpos, zero_mul, Int.cast_lt_zero]

end CDN
